import Mathlib

/-!
Verification development for the whatsapp-bot message-claim-and-processing
engine.  The definitions below are a shallow embedding of the Python source:

* `src/database.py`   — the durable message store (`Database`),
* `src/message_agent.py` — the processing orchestrator (`MessageAgent`),
* `src/config.py`     — the configuration records the orchestrator reads.

Timestamps are modelled as `Int` seconds since the Unix epoch (the code keeps
`datetime` values and ISO strings whose comparisons agree with this order);
time zones are modelled as fixed offsets in seconds east of UTC (the code's
zone conversions via `astimezone`, restricted to fixed-offset zones).
-/

namespace WhatsappBot

/-- Processing state column `processing_status` of the `messages` table:
0 = pending, 1 = claimed/processing, 2 = completed, 3 = failed terminal.
Only these four values are ever written by the code. -/
inductive PStatus where
  | pending
  | claimed
  | completed
  | failedTerminal
deriving DecidableEq, Repr

/-- A row of the `messages` table (columns of `src/database.py`,
`Database.initialize` plus `migrate_schema_v2`). -/
structure Msg where
  id : String
  chat_jid : String
  sender : String
  content : String
  timestamp : Int
  is_from_me : Bool
  processed : Bool
  processing_status : PStatus
  processing_started_at : Option Int
  processing_completed_at : Option Int
  retry_count : Nat
  synced_at : Int
deriving DecidableEq, Repr

/-- A row of the `chat_sessions` table. -/
structure ChatSession where
  session_id : String
  user_jid : String
  chat_jid : String
  context : String
  created_at : Int
  expires_at : Int
  last_activity : Int
deriving DecidableEq, Repr

/-- The database state: the `messages` and `chat_sessions` tables. -/
structure DB where
  messages : List Msg
  sessions : List ChatSession
deriving DecidableEq, Repr

/-! ### `Database.insert_message` (src/database.py lines 226-253) -/

/-- `Database.insert_message`: `INSERT OR IGNORE` of a fresh pending row;
if the id already exists only `synced_at` is refreshed.  Returns
`(inserted, new state)`; `now` models `CURRENT_TIMESTAMP`. -/
def insert_message (db : DB) (msg_id chat_jid sender content : String)
    (timestamp : Int) (is_from_me : Bool) (now : Int) : Bool × DB :=
  if db.messages.any (fun m => m.id == msg_id) then
    (false,
     { db with messages := db.messages.map (fun m =>
         if m.id == msg_id then { m with synced_at := now } else m) })
  else
    (true,
     { db with messages := db.messages ++
         [{ id := msg_id, chat_jid := chat_jid, sender := sender,
            content := content, timestamp := timestamp,
            is_from_me := is_from_me, processed := false,
            processing_status := .pending, processing_started_at := none,
            processing_completed_at := none, retry_count := 0,
            synced_at := now }] })

/-! ### `Database.fetch_and_lock_messages` (src/database.py lines 281-332) -/

/-- The `WHERE` clause of the claim query: fresh rows
(`processing_status = 0`) or timed-out claimed rows
(`processing_status = 1 AND processing_started_at < now - timeout AND
retry_count < 3`).  A `NULL` `processing_started_at` never satisfies the
SQL comparison. -/
def eligibleForClaim (now timeout : Int) (m : Msg) : Bool :=
  m.processing_status == .pending ||
    (m.processing_status == .claimed &&
     (match m.processing_started_at with
      | some t => decide (t < now - timeout)
      | none => false) &&
     decide (m.retry_count < 3))

/-- The claim-time row update: `processing_status = 1`,
`processing_started_at = CURRENT_TIMESTAMP`, `retry_count = retry_count + 1`. -/
def claimUpdate (now : Int) (m : Msg) : Msg :=
  { m with processing_status := .claimed,
           processing_started_at := some now,
           retry_count := m.retry_count + 1 }

/-- Insert a message into a list sorted by event timestamp (ascending). -/
def insertByTs (m : Msg) : List Msg → List Msg
  | [] => [m]
  | x :: xs => if m.timestamp ≤ x.timestamp then m :: x :: xs else x :: insertByTs m xs

/-- `ORDER BY timestamp ASC` of the claim query, as an insertion sort. -/
def sortByTs : List Msg → List Msg
  | [] => []
  | x :: xs => insertByTs x (sortByTs xs)

/-- The first `SELECT` of `fetch_and_lock_messages`: the ids of up to
`limit` eligible rows, ordered by event timestamp ascending. -/
def claimCandidateIds (db : DB) (now : Int) (limit : Nat)
    (timeout_seconds : Int) : List String :=
  ((sortByTs (db.messages.filter (eligibleForClaim now timeout_seconds))).take
    limit).map (fun m => m.id)

/-- `Database.fetch_and_lock_messages`: inside one transaction, select the
ids of up to `limit` eligible rows ordered by event timestamp, mark them
claimed, then re-read the claimed rows ordered by timestamp.  Returns
`(claimed rows, new state)`. -/
def fetch_and_lock_messages (db : DB) (now : Int) (limit : Nat)
    (timeout_seconds : Int) : List Msg × DB :=
  let selectedIds := claimCandidateIds db now limit timeout_seconds
  let msgs := db.messages.map (fun m =>
    if selectedIds.contains m.id then claimUpdate now m else m)
  (sortByTs (msgs.filter (fun m => selectedIds.contains m.id)),
   { db with messages := msgs })

/-- A sequence of claim cycles: fold `fetch_and_lock_messages` over a list
of `(now, limit, timeout)` calls, keeping the store state. -/
def runClaimCycles (db : DB) : List (Int × Nat × Int) → DB
  | [] => db
  | (now, limit, timeout) :: rest =>
    runClaimCycles (fetch_and_lock_messages db now limit timeout).2 rest

/-! ### `Database.mark_message_completed` / `mark_message_failed`
(src/database.py lines 334-357) -/

/-- `Database.mark_message_completed`. -/
def mark_message_completed (db : DB) (msg_id : String) (now : Int) : DB :=
  { db with messages := db.messages.map (fun m =>
      if m.id == msg_id then
        { m with processing_status := .completed,
                 processing_completed_at := some now,
                 processed := true }
      else m) }

/-- `Database.mark_message_failed`: `processing_status = CASE WHEN
retry_count < max_retries THEN 0 ELSE 3 END` for the matching row. -/
def mark_message_failed (db : DB) (msg_id : String) (max_retries : Nat) : DB :=
  { db with messages := db.messages.map (fun m =>
      if m.id == msg_id then
        { m with processing_status :=
            if m.retry_count < max_retries then .pending else .failedTerminal }
      else m) }

/-! ### `Database.has_unprocessed_message_after` (src/database.py lines 371-399) -/

/-- Python truthiness of the optional `sender` argument (`if sender:`):
an empty string counts as absent. -/
def truthySender : Option String → Bool
  | none => false
  | some s => !(s == "")

/-- `Database.has_unprocessed_message_after`: is there a row in the chat with
`processed = 0`, `is_from_me = 0`, `timestamp >` the given one, and — only
when a truthy sender was supplied — exactly that sender? -/
def has_unprocessed_message_after (db : DB) (chat_jid : String)
    (after_timestamp : Int) (sender : Option String) : Bool :=
  db.messages.any (fun m =>
    m.chat_jid == chat_jid &&
    !m.processed &&
    !m.is_from_me &&
    decide (after_timestamp < m.timestamp) &&
    (if truthySender sender then m.sender == sender.getD "" else true))

/-! ### `Database.clear_pending_messages_on_startup` / `initialize`
(src/database.py lines 123-129 and 184-220) -/

/-- `Database.clear_pending_messages_on_startup`: every row with
`processing_status IN (0, 1)` is marked completed (`processing_status = 2`,
`processing_completed_at = CURRENT_TIMESTAMP`, `processed = 1`) and every
`chat_sessions` row is deleted. -/
def clear_pending_messages_on_startup (db : DB) (now : Int) : DB :=
  { messages := db.messages.map (fun m =>
      if m.processing_status == .pending || m.processing_status == .claimed then
        { m with processing_status := .completed,
                 processing_completed_at := some now,
                 processed := true }
      else m),
    sessions := [] }

/-- `Database.initialize` after table creation and schema migration ends by
calling `clear_pending_messages_on_startup` (src/database.py line 129). -/
def init_database (db : DB) (now : Int) : DB :=
  clear_pending_messages_on_startup db now

/-! ### `SessionMemoryConfig` (src/config.py lines 87-134) -/

/-- `SessionMemoryConfig`: the session-memory expiry policy.  `reset_time`
holds the already-parsed `HH:MM` pair (`map(int, reset_time.split(":"))` in
the code); `tz_offset` models the configured zone as a fixed offset in
seconds east of UTC. -/
structure SessionMemoryConfig where
  reset_mode : String
  reset_time : Option (Nat × Nat) := none
  reset_hours : Option Nat := none
  reset_minutes : Option Nat := none
  tz_offset : Int := 0
deriving DecidableEq, Repr

/-- Python truthiness of an optional integer field (`if self.reset_minutes:`):
`None` and `0` are both falsy. -/
def truthyNat : Option Nat → Bool
  | none => false
  | some n => !(n == 0)

/-- `SessionMemoryConfig.get_duration_minutes`: the duration window in
minutes, `reset_minutes` first, else `reset_hours * 60`, else `None`;
`None` outside duration mode. -/
def get_duration_minutes (c : SessionMemoryConfig) : Option Nat :=
  if c.reset_mode ≠ "duration" then none
  else if truthyNat c.reset_minutes then c.reset_minutes
  else if truthyNat c.reset_hours then
    match c.reset_hours with
    | some h => some (h * 60)
    | none => none
  else none

/-- Start of the local calendar day containing local instant `t`
(`datetime.replace(hour=0, minute=0, second=0, microsecond=0)`). -/
def localDayStart (t : Int) : Int := t - t % 86400

/-- `Database._calculate_session_expiry` (src/database.py lines 497-538):
work in the configured zone, compute the expiry instant per the reset mode,
convert back to UTC.  `ValueError` paths become `Except.error`. -/
def calculate_session_expiry (base_time : Int) (c : SessionMemoryConfig) :
    Except String Int :=
  let created_local := base_time + c.tz_offset
  if c.reset_mode = "time" then
    match c.reset_time with
    | some (h, mi) =>
      let reset_today := localDayStart created_local + h * 3600 + mi * 60
      let expiry_local :=
        if created_local < reset_today then reset_today else reset_today + 86400
      .ok (expiry_local - c.tz_offset)
    | none => .error "reset_time missing"
  else if c.reset_mode = "duration" then
    match get_duration_minutes c with
    | some d => .ok (created_local + d * 60 - c.tz_offset)
    | none =>
      .error "Duration-based session memory requires reset_hours or reset_minutes"
  else if c.reset_mode = "same_day" then
    .ok (localDayStart (created_local + 86400) - c.tz_offset)
  else .error "Unknown reset_mode"

/-! ### Python string primitives

The Python string operations the agent uses, modelled over the character
list of a Lean `String` (Python indexes and slices strings by code point,
exactly the `List Char` view). -/

/-- Python `str.startswith`. -/
def pyStartsWith (s pre : String) : Bool :=
  pre.data.isPrefixOf s.data

/-- Python `str.endswith`. -/
def pyEndsWith (s post : String) : Bool :=
  post.data.isSuffixOf s.data

/-- Python `str.lower` (ASCII letters; the wake-word patterns are ASCII). -/
def pyLower (s : String) : String :=
  String.mk (s.data.map Char.toLower)

/-- Python `str.strip()`: drop leading and trailing whitespace. -/
def pyStrip (s : String) : String :=
  String.mk
    (((s.data.dropWhile Char.isWhitespace).reverse.dropWhile
        Char.isWhitespace).reverse)

/-- Python `str.lstrip()`: drop leading whitespace. -/
def pyLstrip (s : String) : String :=
  String.mk (s.data.dropWhile Char.isWhitespace)

/-- Python `s[n:]`: drop the first `n` code points. -/
def pyDrop (s : String) (n : Nat) : String :=
  String.mk (s.data.drop n)

/-! ### `MessageAgent.check_and_strip_wake_word`
(src/message_agent.py lines 124-186) -/

/-- `MessageAgent.check_and_strip_wake_word`: the English patterns are
matched case-insensitively on the trimmed content, the remaining patterns
on the trimmed content as stored in the source file, each with its
hardcoded strip length; a match drops that many characters and strips
leading whitespace from the remainder. -/
def check_and_strip_wake_word (content : String) : Bool × String :=
  if content == "" then (false, content)
  else
    let normalized := pyStrip content
    let normalizedLower := pyLower normalized
    if pyStartsWith normalizedLower "hello bot" then
      (true, pyLstrip (pyDrop normalized 9))
    else if pyStartsWith normalizedLower "hey bot" then
      (true, pyLstrip (pyDrop normalized 7))
    else if pyStartsWith normalizedLower "hi bot" then
      (true, pyLstrip (pyDrop normalized 6))
    else if pyStartsWith normalized "◊î◊ú◊ï ◊ë◊ï◊ò" then
      (true, pyLstrip (pyDrop normalized 7))
    else if pyStartsWith normalized "◊î◊ô◊ô ◊ë◊ï◊ò" then
      (true, pyLstrip (pyDrop normalized 7))
    else if pyStartsWith normalized "◊î◊ô ◊ë◊ï◊ò" then
      (true, pyLstrip (pyDrop normalized 6))
    else (false, content)

/-! ### Context pruning (src/message_agent.py lines 278-311 and 361-388) -/

/-- One entry of a session's stored context.  The code stores the timestamp
as an ISO string and re-parses it when pruning; `timestamp = none` models a
missing or unparseable timestamp. -/
structure ContextEntry where
  role : String
  content : String
  timestamp : Option Int
deriving DecidableEq, Repr

/-- `self.max_context_messages = 20` (src/message_agent.py line 118). -/
def max_context_messages : Nat := 20

/-- The per-entry keep decision of the duration-window pruning pass:
entries with no (parseable) timestamp are kept, others iff
`timestamp >= cutoff`. -/
def keptByCutoff (cutoff : Int) (e : ContextEntry) : Bool :=
  match e.timestamp with
  | none => true
  | some ts => decide (cutoff ≤ ts)

/-- The last `n` elements of a list (`pruned[-n:]`). -/
def takeLast (n : Nat) (l : List ContextEntry) : List ContextEntry :=
  l.drop (l.length - n)

/-- `MessageAgent._prune_context`: drop entries outside the duration window
(duration mode with a truthy window only), then keep at most the last
`max_context_messages` entries. -/
def prune_context (context : List ContextEntry) (c : SessionMemoryConfig)
    (now : Int) : List ContextEntry :=
  if context = [] then []
  else
    let cutoff : Option Int :=
      if c.reset_mode = "duration" then
        match get_duration_minutes c with
        | some d => if d == 0 then none else some (now - (d : Int) * 60)
        | none => none
      else none
    let pruned := context.filter (fun e =>
      match cutoff with
      | none => true
      | some co => keptByCutoff co e)
    if pruned.length > max_context_messages then
      pruned.drop (pruned.length - max_context_messages)
    else pruned

/-- `MessageAgent._append_and_trim_context`: append the user/assistant
exchange (with the sender annotated into the user entry when supplied) and
re-prune at the response time. -/
def append_and_trim_context (context : List ContextEntry)
    (user_message assistant_message : String) (user_time response_time : Int)
    (c : SessionMemoryConfig) (sender : Option String) : List ContextEntry :=
  let user_content :=
    match sender with
    | some s => "[From: " ++ s ++ "] " ++ user_message
    | none => user_message
  prune_context
    (context ++
      [{ role := "user", content := user_content, timestamp := some user_time },
       { role := "assistant", content := assistant_message,
         timestamp := some response_time }])
    c response_time

/-! ### Configuration records read by the orchestrator (src/config.py) -/

/-- The fields of `MonitoredEntity` that `MessageAgent.process_message`
reads (src/config.py lines 137-151). -/
structure MonitoredEntity where
  hey_bot : Bool
  response_delay : Option Nat := none
  debug : Bool := false
deriving Repr, DecidableEq

/-- The slice of `Config` that `MessageAgent.process_message` reads:
the operator's own JID, the self-conversation policy, the active-entity
lookup map, and the global response-delay default. -/
structure BotConfig where
  self_jid : String
  self_active : Bool
  entity_by_jid : String → Option MonitoredEntity
  response_delay_default : Nat

/-- `Config.is_self_message` (src/config.py lines 336-338). -/
def is_self_message (cfg : BotConfig) (jid : String) : Bool :=
  jid == cfg.self_jid

/-- `Config.get_response_delay_for_entity` (src/config.py lines 368-373):
the per-entity override when present, else the global default. -/
def get_response_delay_for_entity (cfg : BotConfig) (jid : String) : Nat :=
  match cfg.entity_by_jid jid with
  | some e =>
    match e.response_delay with
    | some d => d
    | none => cfg.response_delay_default
  | none => cfg.response_delay_default

/-! ### `MessageAgent._maybe_wait_for_user_response`
(src/message_agent.py lines 336-359) -/

/-- `check_interval = min(1, delay_seconds)` (src/message_agent.py
line 346): the sleep, in seconds, between store polls of the debounce wait. -/
def check_interval (delay_seconds : Nat) : Nat :=
  min 1 delay_seconds

/-- `MessageAgent._maybe_wait_for_user_response`.  `dbs` is the sequence of
store snapshots observed at the successive poll instants before the
deadline; the loop returns `False` at the first poll for which
`has_unprocessed_message_after` reports a newer unprocessed incoming
message from the same sender, and `True` when the delay elapses with every
poll negative (or when the delay is not positive). -/
def maybe_wait_for_user_response (dbs : List DB) (chat_jid sender : String)
    (message_time : Int) (delay_seconds : Nat) : Bool :=
  if delay_seconds = 0 then true
  else !(dbs.any (fun db =>
    has_unprocessed_message_after db chat_jid message_time (some sender)))

/-! ### `MessageAgent.process_message` (src/message_agent.py lines 453-669) -/

/-- How processing one claimed message ends, as observable through the
external collaborators:

* `completedWithoutReply` — one of the silent-filter paths returned before
  the completion provider or the transport was touched (the caller then
  marks the message completed);
* `fallbackReply` — `query_llm` refused an empty/whitespace content and a
  canned text was sent, the completion provider was not invoked;
* `repliedViaLLM c` — the completion provider was invoked with content `c`
  and its reply was sent. -/
inductive ProcessOutcome where
  | completedWithoutReply
  | fallbackReply
  | repliedViaLLM (content : String)
deriving DecidableEq, Repr

/-- The tail of `process_message` from the response-delay debounce on:
wait (non-self chats with a positive delay only), then `query_llm`, which
returns a canned apology without touching the provider when the content is
empty or whitespace (src/message_agent.py lines 585-598 and 689-692). -/
def delayAndReply (cfg : BotConfig) (m : Msg) (content : String)
    (dbs : List DB) : ProcessOutcome :=
  let response_delay := get_response_delay_for_entity cfg m.chat_jid
  let proceed :=
    if !(is_self_message cfg m.chat_jid) && decide (0 < response_delay) then
      maybe_wait_for_user_response dbs m.chat_jid m.sender m.timestamp
        response_delay
    else true
  if proceed then
    if content == "" || pyStrip content == "" then .fallbackReply
    else .repliedViaLLM content
  else .completedWithoutReply

/-- `MessageAgent.process_message`: the per-message decision pipeline.
`last_bot_response` is the orchestrator's `self.last_bot_response` map and
`dbs` the store snapshots seen by the debounce polls.  The message row `m`
carries the processing status the idempotency re-read observes. -/
def process_message (cfg : BotConfig)
    (last_bot_response : String → Option String) (m : Msg)
    (dbs : List DB) : ProcessOutcome :=
  -- idempotency check
  if m.processing_status == .completed then .completedWithoutReply
  -- bot-originated messages (synthetic id, or sender is the operator)
  else if pyStartsWith m.id "sent_" || m.sender == cfg.self_jid ||
          pyEndsWith m.sender cfg.self_jid then .completedWithoutReply
  -- echo of the last reply sent to this (non-self) chat
  else if !(is_self_message cfg m.chat_jid) && m.is_from_me &&
          (match last_bot_response m.chat_jid with
           | some r => !(r == "") && m.content == r
           | none => false) then .completedWithoutReply
  else if is_self_message cfg m.chat_jid then
    if !cfg.self_active then .completedWithoutReply
    else if pyStartsWith m.id "sent_" then .completedWithoutReply
    else delayAndReply cfg m m.content dbs
  else
    match cfg.entity_by_jid m.chat_jid with
    | none => .completedWithoutReply
    | some entity =>
      if entity.hey_bot then
        match check_and_strip_wake_word m.content with
        | (false, _) => .completedWithoutReply
        | (true, stripped) =>
          if stripped == "" || pyStrip stripped == "" then .completedWithoutReply
          else delayAndReply cfg m stripped dbs
      else delayAndReply cfg m m.content dbs

/-! ### Concrete instances used by witnesses and counterexamples -/

/-- The operator's own JID in the concrete scenarios. -/
def selfJid : String := "972500000000@s.whatsapp.net"

/-- A fresh pending incoming message. -/
def msgPendingW : Msg :=
  { id := "w1", chat_jid := "group1@g.us", sender := "u1@s.whatsapp.net",
    content := "hi", timestamp := 100, is_from_me := false, processed := false,
    processing_status := .pending, processing_started_at := none,
    processing_completed_at := none, retry_count := 0, synced_at := 0 }

/-- An already-completed message. -/
def msgDoneW : Msg :=
  { id := "w2", chat_jid := "group1@g.us", sender := "u1@s.whatsapp.net",
    content := "done", timestamp := 50, is_from_me := false, processed := true,
    processing_status := .completed, processing_started_at := some 10,
    processing_completed_at := some 20, retry_count := 1, synced_at := 0 }

/-- A message whose retries are exhausted (`FAILED_TERMINAL`). -/
def msgTermW : Msg :=
  { id := "w3", chat_jid := "group1@g.us", sender := "u1@s.whatsapp.net",
    content := "poison", timestamp := 70, is_from_me := false, processed := false,
    processing_status := .failedTerminal, processing_started_at := some 10,
    processing_completed_at := none, retry_count := 3, synced_at := 0 }

/-- A store with one pending, one completed and one terminal message. -/
def dbClaimW : DB :=
  { messages := [msgPendingW, msgDoneW, msgTermW], sessions := [] }

/-- An entity with no wake-word requirement and no response delay. -/
def entityPlainW : MonitoredEntity :=
  { hey_bot := false, response_delay := some 0 }

/-- An entity requiring the wake word, with no response delay. -/
def entityWakeW : MonitoredEntity :=
  { hey_bot := true, response_delay := some 0 }

/-- An entity with a five-second response delay. -/
def entityDelayW : MonitoredEntity :=
  { hey_bot := false, response_delay := some 5 }

/-- A configuration monitoring three group chats with the policies above. -/
def cfgW : BotConfig :=
  { self_jid := selfJid, self_active := true,
    entity_by_jid := fun j =>
      if j == "group1@g.us" then some entityPlainW
      else if j == "group2@g.us" then some entityWakeW
      else if j == "group3@g.us" then some entityDelayW
      else none,
    response_delay_default := 5 }

/-- A last-sent-reply map recording `"hello"` for `group1@g.us`. -/
def lastRespW : String → Option String :=
  fun c => if c == "group1@g.us" then some "hello" else none

/-- An incoming (not self-sent) claimed message whose content coincides
with the last reply recorded for its chat. -/
def msgEchoW : Msg :=
  { id := "m1", chat_jid := "group1@g.us", sender := "u1@s.whatsapp.net",
    content := "hello", timestamp := 100, is_from_me := false, processed := false,
    processing_status := .claimed, processing_started_at := some 50,
    processing_completed_at := none, retry_count := 1, synced_at := 0 }

/-- The same echo message but carrying the bot-origin flag. -/
def msgEchoFromMeW : Msg :=
  { msgEchoW with id := "m2", is_from_me := true }

/-- A claimed message addressed with the wake word in the wake-word chat. -/
def msgWakeW : Msg :=
  { id := "m3", chat_jid := "group2@g.us", sender := "u1@s.whatsapp.net",
    content := "hey bot what time is it", timestamp := 100, is_from_me := false,
    processed := false, processing_status := .claimed,
    processing_started_at := some 50, processing_completed_at := none,
    retry_count := 1, synced_at := 0 }

/-- A claimed message that is only the wake word. -/
def msgWakeEmptyW : Msg :=
  { msgWakeW with id := "m4", content := "hey bot" }

/-- A claimed message in the delayed chat. -/
def msgDelayW : Msg :=
  { id := "m5", chat_jid := "group3@g.us", sender := "u1@s.whatsapp.net",
    content := "anyone here?", timestamp := 100, is_from_me := false,
    processed := false, processing_status := .claimed,
    processing_started_at := some 50, processing_completed_at := none,
    retry_count := 1, synced_at := 0 }

/-- A newer unprocessed incoming message from the same sender in the
delayed chat (what the debounce poll notices). -/
def msgFollowUpW : Msg :=
  { id := "m6", chat_jid := "group3@g.us", sender := "u1@s.whatsapp.net",
    content := "never mind", timestamp := 150, is_from_me := false,
    processed := false, processing_status := .pending,
    processing_started_at := none, processing_completed_at := none,
    retry_count := 0, synced_at := 0 }

/-- The store snapshot a debounce poll observes. -/
def dbPollW : DB := { messages := [msgFollowUpW], sessions := [] }

/-- A message the bot itself sent. -/
def msgOwnW : Msg :=
  { id := "sent_1", chat_jid := "group3@g.us", sender := selfJid,
    content := "mine", timestamp := 200, is_from_me := true, processed := false,
    processing_status := .pending, processing_started_at := none,
    processing_completed_at := none, retry_count := 0, synced_at := 0 }

/-- A store holding only the bot's own message. -/
def dbOwnW : DB := { messages := [msgOwnW], sessions := [] }

/-- The fixed-time expiry policy of the spec example:
`{mode: "time", reset_time: "02:00", zone: UTC}`. -/
def smcTimeW : SessionMemoryConfig :=
  { reset_mode := "time", reset_time := some (2, 0) }

/-- The duration expiry policy of the spec example: 90 minutes. -/
def smcDur90W : SessionMemoryConfig :=
  { reset_mode := "duration", reset_minutes := some 90 }

/-- A duration policy given in hours only. -/
def smcDur2hW : SessionMemoryConfig :=
  { reset_mode := "duration", reset_hours := some 2 }

/-- A context with an out-of-window entry, an entry without a parseable
timestamp, and a recent entry. -/
def ctxW : List ContextEntry :=
  [{ role := "user", content := "ancient", timestamp := some 0 },
   { role := "assistant", content := "unknown time", timestamp := none },
   { role := "user", content := "recent", timestamp := some 5900 }]

/-! ### Specification predicates -/

/-- What claim C1 asserts of one `fetch_and_lock_messages` call: every
returned row is an eligible row transitioned to claimed-at-`now` with its
retry counter incremented by exactly 1; when `limit` does not truncate,
every eligible row is returned; the result is ordered by event timestamp,
bounded by `limit`; returned rows are persisted and unselected rows are
untouched. -/
def FetchAndLockSpec (db : DB) (now : Int) (limit : Nat) (timeout : Int) :
    Prop :=
  (∀ m ∈ (fetch_and_lock_messages db now limit timeout).1,
      m.processing_status = .claimed ∧ m.processing_started_at = some now) ∧
  (∀ m ∈ (fetch_and_lock_messages db now limit timeout).1,
      ∃ m0 ∈ db.messages, eligibleForClaim now timeout m0 = true ∧
        m.retry_count = m0.retry_count + 1 ∧ m = claimUpdate now m0) ∧
  ((db.messages.filter (eligibleForClaim now timeout)).length ≤ limit →
      ∀ m0 ∈ db.messages, eligibleForClaim now timeout m0 = true →
        claimUpdate now m0 ∈ (fetch_and_lock_messages db now limit timeout).1) ∧
  (fetch_and_lock_messages db now limit timeout).1.Pairwise
      (fun a b => a.timestamp ≤ b.timestamp) ∧
  (fetch_and_lock_messages db now limit timeout).1.length ≤ limit ∧
  (∀ m ∈ (fetch_and_lock_messages db now limit timeout).1,
      m ∈ (fetch_and_lock_messages db now limit timeout).2.messages) ∧
  (∀ m0 ∈ db.messages,
      m0.id ∉ ((fetch_and_lock_messages db now limit timeout).1).map Msg.id →
        m0 ∈ (fetch_and_lock_messages db now limit timeout).2.messages)

/-- What claim C2 asserts of `insert_message` on an id already present:
the call reports no insertion and every stored row keeps its content,
conversation, sender, timestamp, origin flag and processing state — only
the matching row's `synced_at` is refreshed. -/
def InsertExistingSpec (db : DB) (msg_id chat_jid sender content : String)
    (timestamp : Int) (is_from_me : Bool) (now : Int) : Prop :=
  (insert_message db msg_id chat_jid sender content timestamp is_from_me now).1
    = false ∧
  ∀ m ∈ db.messages,
    ∃ m2 ∈ (insert_message db msg_id chat_jid sender content timestamp
        is_from_me now).2.messages,
      m2.id = m.id ∧ m2.chat_jid = m.chat_jid ∧ m2.sender = m.sender ∧
      m2.content = m.content ∧ m2.timestamp = m.timestamp ∧
      m2.is_from_me = m.is_from_me ∧ m2.processed = m.processed ∧
      m2.processing_status = m.processing_status ∧
      m2.processing_started_at = m.processing_started_at ∧
      m2.processing_completed_at = m.processing_completed_at ∧
      m2.retry_count = m.retry_count ∧
      m2.synced_at = if m.id = msg_id then now else m.synced_at

/-- What claim C2 asserts of `insert_message` on a fresh id: the call
reports an insertion and appends a pending row with the given fields. -/
def InsertFreshSpec (db : DB) (msg_id chat_jid sender content : String)
    (timestamp : Int) (is_from_me : Bool) (now : Int) : Prop :=
  (insert_message db msg_id chat_jid sender content timestamp is_from_me now).1
    = true ∧
  (insert_message db msg_id chat_jid sender content timestamp
      is_from_me now).2.messages =
    db.messages ++
      [{ id := msg_id, chat_jid := chat_jid, sender := sender,
         content := content, timestamp := timestamp,
         is_from_me := is_from_me, processed := false,
         processing_status := .pending, processing_started_at := none,
         processing_completed_at := none, retry_count := 0,
         synced_at := now }]

/-- What claim C3 asserts of `mark_message_failed`: the matching row goes
back to pending when its retry counter is below `max_retries` and to
terminal otherwise; other rows are untouched. -/
def MarkFailedSpec (db : DB) (msg_id : String) (max_retries : Nat) : Prop :=
  ∀ m ∈ db.messages,
    (m.id ≠ msg_id →
      m ∈ (mark_message_failed db msg_id max_retries).messages) ∧
    (m.id = msg_id →
      (m.retry_count < max_retries →
        { m with processing_status := PStatus.pending } ∈
          (mark_message_failed db msg_id max_retries).messages) ∧
      (max_retries ≤ m.retry_count →
        { m with processing_status := PStatus.failedTerminal } ∈
          (mark_message_failed db msg_id max_retries).messages))

/-- What claim C3 asserts of a terminal row: after any sequence of claim
cycles it is never part of a claim result and is still stored unchanged. -/
def TerminalNeverReclaimed (db : DB) (m : Msg) : Prop :=
  ∀ (calls : List (Int × Nat × Int)) (now : Int) (limit : Nat) (timeout : Int),
    m ∉ (fetch_and_lock_messages (runClaimCycles db calls) now limit timeout).1 ∧
    m ∈ (fetch_and_lock_messages (runClaimCycles db calls) now limit
        timeout).2.messages

/-- What claim C8 asserts of store initialization: every pending or claimed
row is transitioned to completed, every other row is untouched, no row of
the result is pending or claimed, and all session rows are deleted. -/
def StartupClearSpec (db : DB) (now : Int) : Prop :=
  (init_database db now).sessions = [] ∧
  (∀ m ∈ db.messages,
    (m.processing_status = PStatus.pending ∨
     m.processing_status = PStatus.claimed) →
      { m with processing_status := PStatus.completed,
               processing_completed_at := some now, processed := true } ∈
        (init_database db now).messages) ∧
  (∀ m ∈ db.messages, m.processing_status ≠ PStatus.pending →
    m.processing_status ≠ PStatus.claimed →
      m ∈ (init_database db now).messages) ∧
  (∀ m ∈ (init_database db now).messages,
    m.processing_status ≠ PStatus.pending ∧
    m.processing_status ≠ PStatus.claimed)

/-! ### Helper lemmas about the timestamp sort and row identity -/

theorem mem_insertByTs {a m : Msg} {l : List Msg} :
    a ∈ insertByTs m l ↔ a = m ∨ a ∈ l := by
  induction l with
  | nil => simp [insertByTs]
  | cons x xs ih =>
    by_cases h : m.timestamp ≤ x.timestamp
    · simp [insertByTs, h]
    · simp only [insertByTs, if_neg h, List.mem_cons, ih]
      tauto

theorem length_insertByTs (m : Msg) (l : List Msg) :
    (insertByTs m l).length = l.length + 1 := by
  induction l with
  | nil => rfl
  | cons x xs ih =>
    by_cases h : m.timestamp ≤ x.timestamp
    · simp [insertByTs, h]
    · simp only [insertByTs, if_neg h, List.length_cons, ih]

theorem mem_sortByTs {a : Msg} {l : List Msg} : a ∈ sortByTs l ↔ a ∈ l := by
  induction l with
  | nil => simp [sortByTs]
  | cons x xs ih => simp [sortByTs, mem_insertByTs, ih]

theorem length_sortByTs (l : List Msg) : (sortByTs l).length = l.length := by
  induction l with
  | nil => rfl
  | cons x xs ih => simp [sortByTs, length_insertByTs, ih]

theorem pairwise_insertByTs {m : Msg} {l : List Msg}
    (h : l.Pairwise (fun a b => a.timestamp ≤ b.timestamp)) :
    (insertByTs m l).Pairwise (fun a b => a.timestamp ≤ b.timestamp) := by
  induction l with
  | nil => simp [insertByTs]
  | cons x xs ih =>
    rcases List.pairwise_cons.mp h with ⟨hx, hxs⟩
    by_cases hle : m.timestamp ≤ x.timestamp
    · rw [insertByTs, if_pos hle]
      refine List.pairwise_cons.mpr ⟨?_, h⟩
      intro b hb
      rcases List.mem_cons.mp hb with rfl | hb
      · exact hle
      · exact le_trans hle (hx b hb)
    · rw [insertByTs, if_neg hle]
      refine List.pairwise_cons.mpr ⟨?_, ih hxs⟩
      intro b hb
      rcases mem_insertByTs.mp hb with rfl | hb
      · exact le_of_not_le hle
      · exact hx b hb

theorem pairwise_sortByTs (l : List Msg) :
    (sortByTs l).Pairwise (fun a b => a.timestamp ≤ b.timestamp) := by
  induction l with
  | nil => simp [sortByTs]
  | cons x xs ih =>
    rw [sortByTs]
    exact pairwise_insertByTs ih

theorem msg_eq_of_id_eq {l : List Msg} (hnd : (l.map Msg.id).Nodup)
    {m0 m1 : Msg} (h0 : m0 ∈ l) (h1 : m1 ∈ l) (h : m0.id = m1.id) :
    m0 = m1 := by
  induction l with
  | nil => cases h0
  | cons x xs ih =>
    rw [List.map_cons, List.nodup_cons] at hnd
    rcases List.mem_cons.mp h0 with h0x | h0t
    · rcases List.mem_cons.mp h1 with h1x | h1t
      · rw [h0x, h1x]
      · exfalso
        apply hnd.1
        rw [h0x] at h
        rw [h]
        exact List.mem_map_of_mem Msg.id h1t
    · rcases List.mem_cons.mp h1 with h1x | h1t
      · exfalso
        apply hnd.1
        rw [h1x] at h
        rw [← h]
        exact List.mem_map_of_mem Msg.id h0t
      · exact ih hnd.2 h0t h1t

theorem contains_iff_mem {l : List String} {s : String} :
    l.contains s = true ↔ s ∈ l := by
  simp

/-! ### Structural lemmas about the claim query -/

theorem fetch_eq (db : DB) (now : Int) (limit : Nat) (timeout : Int) :
    fetch_and_lock_messages db now limit timeout =
      (sortByTs ((db.messages.map (fun m =>
          if (claimCandidateIds db now limit timeout).contains m.id then
            claimUpdate now m else m)).filter
          (fun m => (claimCandidateIds db now limit timeout).contains m.id)),
       { db with messages := db.messages.map (fun m =>
          if (claimCandidateIds db now limit timeout).contains m.id then
            claimUpdate now m else m) }) := rfl

theorem mem_claimCandidateIds {db : DB} {now : Int} {limit : Nat}
    {timeout : Int} {s : String}
    (hs : s ∈ claimCandidateIds db now limit timeout) :
    ∃ m0 ∈ db.messages, eligibleForClaim now timeout m0 = true ∧ m0.id = s := by
  rcases List.mem_map.mp hs with ⟨m1, hm1, rfl⟩
  have h2 := mem_sortByTs.mp (List.take_subset _ _ hm1)
  rcases List.mem_filter.mp h2 with ⟨hmem, he⟩
  exact ⟨m1, hmem, he, rfl⟩

theorem length_claimCandidateIds (db : DB) (now : Int) (limit : Nat)
    (timeout : Int) :
    (claimCandidateIds db now limit timeout).length ≤ limit := by
  unfold claimCandidateIds
  rw [List.length_map, List.length_take]
  exact min_le_left _ _

theorem claimCandidateIds_complete {db : DB} {now : Int} {limit : Nat}
    {timeout : Int}
    (hlen : (db.messages.filter (eligibleForClaim now timeout)).length ≤ limit)
    {m0 : Msg} (hm0 : m0 ∈ db.messages)
    (he : eligibleForClaim now timeout m0 = true) :
    m0.id ∈ claimCandidateIds db now limit timeout := by
  unfold claimCandidateIds
  have hmem : m0 ∈ sortByTs (db.messages.filter (eligibleForClaim now timeout)) :=
    mem_sortByTs.mpr (List.mem_filter.mpr ⟨hm0, he⟩)
  rw [List.take_of_length_le (by rw [length_sortByTs]; exact hlen)]
  exact List.mem_map_of_mem _ hmem

theorem fetch_result_shape {db : DB} {now : Int} {limit : Nat} {timeout : Int}
    {m : Msg} (hm : m ∈ (fetch_and_lock_messages db now limit timeout).1) :
    ∃ m0 ∈ db.messages,
      m0.id ∈ claimCandidateIds db now limit timeout ∧
      m = claimUpdate now m0 := by
  rw [fetch_eq] at hm
  rcases List.mem_filter.mp (mem_sortByTs.mp hm) with ⟨hmem, hp⟩
  rcases List.mem_map.mp hmem with ⟨m0, hm0, hfm0⟩
  by_cases hc : (claimCandidateIds db now limit timeout).contains m0.id = true
  · rw [if_pos hc] at hfm0
    exact ⟨m0, hm0, contains_iff_mem.mp hc, hfm0.symm⟩
  · rw [if_neg hc] at hfm0
    rw [← hfm0] at hp
    exact absurd hp hc

theorem fetch_result_eligible {db : DB} {now : Int} {limit : Nat}
    {timeout : Int} (hnd : (db.messages.map Msg.id).Nodup)
    {m : Msg} (hm : m ∈ (fetch_and_lock_messages db now limit timeout).1) :
    ∃ m0 ∈ db.messages, eligibleForClaim now timeout m0 = true ∧
      m = claimUpdate now m0 := by
  rcases fetch_result_shape hm with ⟨m0, hm0, hid, hup⟩
  rcases mem_claimCandidateIds hid with ⟨m1, hm1, he1, hideq⟩
  have : m1 = m0 := msg_eq_of_id_eq hnd hm1 hm0 hideq
  rw [this] at he1
  exact ⟨m0, hm0, he1, hup⟩

theorem fetch_ids_unchanged (db : DB) (now : Int) (limit : Nat) (timeout : Int) :
    ((fetch_and_lock_messages db now limit timeout).2.messages).map Msg.id =
      db.messages.map Msg.id := by
  rw [fetch_eq]
  rw [List.map_map]
  refine List.map_congr_left ?_
  intro m _
  show (if (claimCandidateIds db now limit timeout).contains m.id = true then
      claimUpdate now m else m).id = m.id
  by_cases hc : (claimCandidateIds db now limit timeout).contains m.id = true
  · rw [if_pos hc]; rfl
  · rw [if_neg hc]

theorem candidate_mem_result {db : DB} {now : Int} {limit : Nat}
    {timeout : Int} {m0 : Msg} (hm0 : m0 ∈ db.messages)
    (hc : m0.id ∈ claimCandidateIds db now limit timeout) :
    claimUpdate now m0 ∈ (fetch_and_lock_messages db now limit timeout).1 := by
  rw [fetch_eq]
  apply mem_sortByTs.mpr
  apply List.mem_filter.mpr
  have hcb : (claimCandidateIds db now limit timeout).contains m0.id = true :=
    contains_iff_mem.mpr hc
  constructor
  · refine List.mem_map.mpr ⟨m0, hm0, ?_⟩
    rw [if_pos hcb]
  · show (claimCandidateIds db now limit timeout).contains
      (claimUpdate now m0).id = true
    exact hcb

theorem unselected_unchanged {db : DB} {now : Int} {limit : Nat}
    {timeout : Int} {m0 : Msg} (hm0 : m0 ∈ db.messages)
    (hc : m0.id ∉ claimCandidateIds db now limit timeout) :
    m0 ∈ (fetch_and_lock_messages db now limit timeout).2.messages := by
  rw [fetch_eq]
  refine List.mem_map.mpr ⟨m0, hm0, ?_⟩
  rw [if_neg (fun hb => hc (contains_iff_mem.mp hb))]

theorem candidate_ids_in_result (db : DB) (now : Int) (limit : Nat)
    (timeout : Int) {s : String}
    (hs : s ∈ claimCandidateIds db now limit timeout) :
    s ∈ ((fetch_and_lock_messages db now limit timeout).1).map Msg.id := by
  rcases mem_claimCandidateIds hs with ⟨m1, hm1, _, hid⟩
  have hmem := candidate_mem_result hm1 (hid ▸ hs)
  refine List.mem_map.mpr ⟨claimUpdate now m1, hmem, ?_⟩
  show m1.id = s
  exact hid

theorem fetch_result_length_le {db : DB} {now : Int} {limit : Nat}
    {timeout : Int} (hnd : (db.messages.map Msg.id).Nodup) :
    (fetch_and_lock_messages db now limit timeout).1.length ≤ limit := by
  rw [fetch_eq]
  rw [length_sortByTs]
  set msgs2 := db.messages.map (fun m =>
    if (claimCandidateIds db now limit timeout).contains m.id then
      claimUpdate now m else m) with hmsgs2
  set X := msgs2.filter
    (fun m => (claimCandidateIds db now limit timeout).contains m.id) with hX
  have hids : msgs2.map Msg.id = db.messages.map Msg.id := by
    rw [hmsgs2, List.map_map]
    refine List.map_congr_left ?_
    intro m _
    show (if (claimCandidateIds db now limit timeout).contains m.id = true then
        claimUpdate now m else m).id = m.id
    by_cases hc : (claimCandidateIds db now limit timeout).contains m.id = true
    · rw [if_pos hc]; rfl
    · rw [if_neg hc]
  have hsub : (X.map Msg.id).Sublist (msgs2.map Msg.id) :=
    List.Sublist.map Msg.id (List.filter_sublist _)
  have hndX : (X.map Msg.id).Nodup := by
    refine List.Sublist.nodup hsub ?_
    rw [hids]; exact hnd
  have hsubset : X.map Msg.id ⊆ claimCandidateIds db now limit timeout := by
    intro s hsX
    rcases List.mem_map.mp hsX with ⟨m, hmX, rfl⟩
    exact contains_iff_mem.mp (List.mem_filter.mp hmX).2
  have := (hndX.subperm hsubset).length_le
  rw [List.length_map] at this
  exact le_trans this (length_claimCandidateIds db now limit timeout)

/-! ### Claim C1 -/

/-- Claim C1: `fetch_and_lock_messages(limit, timeout_seconds)` selects
exactly the pending rows plus the claimed rows whose processing started
before `now - timeout` with retry counter below the ceiling, ordered by
event timestamp ascending and bounded by `limit`; every selected row is
transitioned to claimed with `processing_started_at` set to the claim time
and its retry counter incremented by exactly 1; and a message claimed at
`T0` with timeout 300s and never completed is not yet reclaimable at
`T0+300` but is reclaimable at `T0+301` (when its retry counter is below
the ceiling), gaining exactly 1 retry per reclaim. -/
theorem claim1_fetch_and_lock (db : DB) (now : Int) (limit : Nat)
    (timeout : Int) (hnd : (db.messages.map Msg.id).Nodup) :
    FetchAndLockSpec db now limit timeout ∧
    (∀ (m : Msg) (T0 : Int), m.processing_status = .claimed →
      m.processing_started_at = some T0 →
      eligibleForClaim (T0 + 300) 300 m = false ∧
      (m.retry_count < 3 → eligibleForClaim (T0 + 301) 300 m = true)) := by
  constructor
  · refine ⟨?_, ?_, ?_, ?_, ?_, ?_, ?_⟩
    · intro m hm
      rcases fetch_result_shape hm with ⟨m0, _, _, hup⟩
      rw [hup]
      exact ⟨rfl, rfl⟩
    · intro m hm
      rcases fetch_result_eligible hnd hm with ⟨m0, hm0, he, hup⟩
      exact ⟨m0, hm0, he, by rw [hup]; rfl, hup⟩
    · intro hlen m0 hm0 he
      exact candidate_mem_result hm0 (claimCandidateIds_complete hlen hm0 he)
    · rw [fetch_eq]
      exact pairwise_sortByTs _
    · exact fetch_result_length_le hnd
    · intro m hm
      rw [fetch_eq] at hm ⊢
      exact (List.mem_filter.mp (mem_sortByTs.mp hm)).1
    · intro m0 hm0 hnotin
      refine unselected_unchanged hm0 ?_
      intro hin
      exact hnotin (candidate_ids_in_result db now limit timeout hin)
  · intro m T0 hs hst
    constructor
    · have h1 : ¬ (T0 < T0 + 300 - 300) := by omega
      simp [eligibleForClaim, hs, hst, h1]
    · intro hr
      have h2 : T0 < T0 + 301 - 300 := by omega
      simp [eligibleForClaim, hs, hst, h2, hr]

/-- Witness for C1: the claim instantiated on a concrete store holding a
pending, a completed and a terminal message. -/
theorem claim1_witness :
    (dbClaimW.messages.map Msg.id).Nodup ∧ FetchAndLockSpec dbClaimW 1000 10 300 :=
  ⟨by decide, (claim1_fetch_and_lock dbClaimW 1000 10 300 (by decide)).1⟩

/-! ### Claim C2 -/

/-- Claim C2: re-ingesting an id already present returns `false` and leaves
the stored row's content, conversation, sender, timestamp, origin flag and
processing state unchanged, refreshing only `synced_at`; ingesting a fresh
id appends a pending row and returns `true`. -/
theorem claim2_insert_idempotent (db : DB)
    (msg_id chat_jid sender content : String) (timestamp : Int)
    (is_from_me : Bool) (now : Int) :
    (db.messages.any (fun m => m.id == msg_id) = true →
      InsertExistingSpec db msg_id chat_jid sender content timestamp
        is_from_me now) ∧
    (db.messages.any (fun m => m.id == msg_id) = false →
      InsertFreshSpec db msg_id chat_jid sender content timestamp
        is_from_me now) := by
  constructor
  · intro h
    have hres : insert_message db msg_id chat_jid sender content timestamp
        is_from_me now =
        (false, { db with messages := db.messages.map (fun m =>
          if m.id == msg_id then { m with synced_at := now } else m) }) := by
      unfold insert_message
      rw [if_pos h]
    refine ⟨by rw [hres], ?_⟩
    intro m hm
    by_cases hid : m.id = msg_id
    · refine ⟨{ m with synced_at := now }, ?_, ?_⟩
      · rw [hres]
        refine List.mem_map.mpr ⟨m, hm, ?_⟩
        rw [if_pos (beq_iff_eq.mpr hid)]
      · simp [hid]
    · refine ⟨m, ?_, ?_⟩
      · rw [hres]
        refine List.mem_map.mpr ⟨m, hm, ?_⟩
        rw [if_neg (by simp [hid])]
      · simp [hid]
  · intro h
    have hres : insert_message db msg_id chat_jid sender content timestamp
        is_from_me now =
        (true, { db with messages := db.messages ++
          [{ id := msg_id, chat_jid := chat_jid, sender := sender,
             content := content, timestamp := timestamp,
             is_from_me := is_from_me, processed := false,
             processing_status := .pending, processing_started_at := none,
             processing_completed_at := none, retry_count := 0,
             synced_at := now }] }) := by
      unfold insert_message
      rw [if_neg (by simp [h])]
    exact ⟨by rw [hres], by rw [hres]⟩

/-- Witness for C2: re-ingesting the already-stored id `"w1"` with
different content, sender, timestamp and origin flag. -/
theorem claim2_witness :
    dbClaimW.messages.any (fun m => m.id == "w1") = true ∧
    InsertExistingSpec dbClaimW "w1" "group1@g.us" "other@s.whatsapp.net"
      "DIFFERENT" 999 true 555 :=
  ⟨by decide,
   (claim2_insert_idempotent dbClaimW "w1" "group1@g.us"
      "other@s.whatsapp.net" "DIFFERENT" 999 true 555).1 (by decide)⟩

/-! ### Claim C3 -/

theorem terminal_excluded_one_step {db : DB} {now : Int} {limit : Nat}
    {timeout : Int} {m : Msg} (hnd : (db.messages.map Msg.id).Nodup)
    (hm : m ∈ db.messages)
    (hs : m.processing_status = PStatus.failedTerminal) :
    m ∉ (fetch_and_lock_messages db now limit timeout).1 ∧
    m ∈ (fetch_and_lock_messages db now limit timeout).2.messages := by
  constructor
  · intro hmem
    rcases fetch_result_shape hmem with ⟨m0, _, _, hup⟩
    rw [hup] at hs
    simp [claimUpdate] at hs
  · refine unselected_unchanged hm ?_
    intro hin
    rcases mem_claimCandidateIds hin with ⟨m1, hm1, he1, hid1⟩
    have : m1 = m := msg_eq_of_id_eq hnd hm1 hm hid1
    rw [this] at he1
    simp [eligibleForClaim, hs] at he1

theorem runClaimCycles_preserves_terminal {db : DB} {m : Msg}
    (calls : List (Int × Nat × Int)) (hnd : (db.messages.map Msg.id).Nodup)
    (hm : m ∈ db.messages)
    (hs : m.processing_status = PStatus.failedTerminal) :
    ((runClaimCycles db calls).messages.map Msg.id).Nodup ∧
    m ∈ (runClaimCycles db calls).messages := by
  induction calls generalizing db with
  | nil => exact ⟨hnd, hm⟩
  | cons c rest ih =>
    obtain ⟨now, limit, timeout⟩ := c
    rw [runClaimCycles]
    apply ih
    · rw [fetch_ids_unchanged]
      exact hnd
    · exact (terminal_excluded_one_step hnd hm hs).2

/-- Claim C3: `mark_message_failed(id, max_retries)` sends the message back
to pending when its retry counter is below `max_retries` and to terminal
otherwise; and a terminal message is never again returned by any later
claim query, for any limit and timeout. -/
theorem claim3_mark_failed_and_terminal (db : DB) (msg_id : String)
    (max_retries : Nat) :
    MarkFailedSpec db msg_id max_retries ∧
    ((db.messages.map Msg.id).Nodup → ∀ m ∈ db.messages,
      m.processing_status = PStatus.failedTerminal →
      TerminalNeverReclaimed db m) := by
  constructor
  · intro m hm
    constructor
    · intro hid
      refine List.mem_map.mpr ⟨m, hm, ?_⟩
      rw [if_neg (by simp [hid])]
    · intro hid
      constructor
      · intro hr
        refine List.mem_map.mpr ⟨m, hm, ?_⟩
        rw [if_pos (beq_iff_eq.mpr hid), if_pos hr]
      · intro hr
        refine List.mem_map.mpr ⟨m, hm, ?_⟩
        rw [if_pos (beq_iff_eq.mpr hid), if_neg (not_lt.mpr hr)]
  · intro hnd m hm hs calls now limit timeout
    obtain ⟨hnd2, hm2⟩ := runClaimCycles_preserves_terminal calls hnd hm hs
    exact terminal_excluded_one_step hnd2 hm2 hs

/-- Witness for C3: the claim instantiated on the concrete store, whose
terminal message `"w3"` is never reclaimed. -/
theorem claim3_witness :
    (dbClaimW.messages.map Msg.id).Nodup ∧
    msgTermW ∈ dbClaimW.messages ∧
    msgTermW.processing_status = PStatus.failedTerminal ∧
    MarkFailedSpec dbClaimW "w3" 3 ∧
    TerminalNeverReclaimed dbClaimW msgTermW :=
  ⟨by decide, by decide, by decide,
   (claim3_mark_failed_and_terminal dbClaimW "w3" 3).1,
   (claim3_mark_failed_and_terminal dbClaimW "w3" 3).2 (by decide) msgTermW
     (by decide) (by decide)⟩

/-! ### Claim C8 -/

theorem fetch_no_eligible {db : DB} {now : Int} {limit : Nat} {timeout : Int}
    (h : ∀ m ∈ db.messages, eligibleForClaim now timeout m = false) :
    fetch_and_lock_messages db now limit timeout = ([], db) := by
  have hfilter : db.messages.filter (eligibleForClaim now timeout) = [] := by
    rw [List.filter_eq_nil_iff]
    intro a ha
    simp [h a ha]
  have hids : claimCandidateIds db now limit timeout = [] := by
    unfold claimCandidateIds
    rw [hfilter]
    simp [sortByTs]
  rw [fetch_eq, hids]
  simp [sortByTs]

/-- Claim C8: store initialization transitions every pending or claimed
message to completed and deletes every session row; a store without
pending or claimed rows yields nothing on any claim query and is left
unchanged by it; and a completed row handed to the orchestrator is skipped
by the idempotency check before any reply. -/
theorem claim8_startup_clear (db : DB) (now : Int) :
    StartupClearSpec db now ∧
    (∀ db2 : DB,
      (∀ m ∈ db2.messages, m.processing_status ≠ PStatus.pending ∧
        m.processing_status ≠ PStatus.claimed) →
      ∀ (now2 : Int) (limit : Nat) (timeout : Int),
        fetch_and_lock_messages db2 now2 limit timeout = ([], db2)) ∧
    (∀ (cfg : BotConfig) (lr : String → Option String) (m : Msg)
        (dbs : List DB), m.processing_status = PStatus.completed →
      process_message cfg lr m dbs = ProcessOutcome.completedWithoutReply) := by
  refine ⟨⟨rfl, ?_, ?_, ?_⟩, ?_, ?_⟩
  · intro m hm hpc
    refine List.mem_map.mpr ⟨m, hm, ?_⟩
    have hc : (m.processing_status == PStatus.pending ||
        m.processing_status == PStatus.claimed) = true := by
      rcases hpc with h | h <;> simp [h]
    rw [if_pos hc]
  · intro m hm hp hc
    refine List.mem_map.mpr ⟨m, hm, ?_⟩
    rw [if_neg (by simp [hp, hc])]
  · intro m hm
    rcases List.mem_map.mp hm with ⟨m0, hm0, hg⟩
    by_cases hc : (m0.processing_status == PStatus.pending ||
        m0.processing_status == PStatus.claimed) = true
    · rw [if_pos hc] at hg
      rw [← hg]
      exact ⟨by simp, by simp⟩
    · rw [if_neg hc] at hg
      rw [← hg]
      simpa using hc
  · intro db2 hstat now2 limit timeout
    refine fetch_no_eligible ?_
    intro m hm
    obtain ⟨h1, h2⟩ := hstat m hm
    simp [eligibleForClaim, h1, h2]
  · intro cfg lr m dbs h
    simp [process_message, h]

/-- Witness for C8: initialization of the concrete store, after which a
claim query returns nothing, and the orchestrator skips a completed row. -/
theorem claim8_witness :
    StartupClearSpec dbClaimW 777 ∧
    fetch_and_lock_messages (init_database dbClaimW 777) 1000 10 300 =
      ([], init_database dbClaimW 777) ∧
    process_message cfgW lastRespW msgDoneW [] =
      ProcessOutcome.completedWithoutReply :=
  ⟨(claim8_startup_clear dbClaimW 777).1,
   (claim8_startup_clear dbClaimW 777).2.1 (init_database dbClaimW 777)
     (by decide) 1000 10 300,
   (claim8_startup_clear dbClaimW 777).2.2 cfgW lastRespW msgDoneW []
     (by decide)⟩

/-! ### Claim C9 -/

/-- Counterexample to C9 as stated: with the supplied sender `""` the query
ignores the sender filter (Python truthiness of `if sender:`), so it
returns true on a store whose only candidate row has sender
`"u1@s.whatsapp.net"` — yet no row has sender `""`, which the claimed
equivalence would require. -/
theorem claim9_counterexample :
    ¬ (has_unprocessed_message_after dbPollW "group3@g.us" 0 (some "") = true ↔
      ∃ m ∈ dbPollW.messages, m.chat_jid = "group3@g.us" ∧
        m.processed = false ∧ m.is_from_me = false ∧ (0 : Int) < m.timestamp ∧
        m.sender = "") := by
  decide

/-- Claim C9 (amended): `has_unprocessed_message_after(chat, t, sender)` is
true iff some stored row of the chat has `processed = 0`, `is_from_me = 0`,
timestamp strictly above `t` and — when a *non-empty* sender is supplied —
exactly that sender (a supplied empty sender is treated as no filter); in
particular the bot's own messages never satisfy the predicate. -/
theorem claim9_has_unprocessed_after (db : DB) (chat : String) (t : Int)
    (sender : Option String) :
    (has_unprocessed_message_after db chat t sender = true ↔
      ∃ m ∈ db.messages, m.chat_jid = chat ∧ m.processed = false ∧
        m.is_from_me = false ∧ t < m.timestamp ∧
        (∀ s, sender = some s → s ≠ "" → m.sender = s)) ∧
    ((∀ m ∈ db.messages, m.is_from_me = true) →
      has_unprocessed_message_after db chat t sender = false) := by
  constructor
  · rw [has_unprocessed_message_after, List.any_eq_true]
    constructor
    · rintro ⟨m, hm, hp⟩
      simp only [Bool.and_eq_true, beq_iff_eq, Bool.not_eq_true',
        decide_eq_true_eq] at hp
      obtain ⟨⟨⟨⟨hchat, hproc⟩, hfrom⟩, hts⟩, hsend⟩ := hp
      refine ⟨m, hm, hchat, hproc, hfrom, hts, ?_⟩
      intro s hs hne
      rw [hs] at hsend
      have ht : truthySender (some s) = true := by simp [truthySender, hne]
      rw [if_pos ht] at hsend
      simpa using hsend
    · rintro ⟨m, hm, hchat, hproc, hfrom, hts, hsend⟩
      refine ⟨m, hm, ?_⟩
      simp only [Bool.and_eq_true, beq_iff_eq, Bool.not_eq_true',
        decide_eq_true_eq]
      refine ⟨⟨⟨⟨hchat, hproc⟩, hfrom⟩, hts⟩, ?_⟩
      by_cases ht : truthySender sender = true
      · rw [if_pos ht]
        cases sender with
        | none => simp [truthySender] at ht
        | some s =>
          have hne : s ≠ "" := by simpa [truthySender] using ht
          simp [hsend s rfl hne]
      · rw [if_neg ht]
  · intro hall
    rw [has_unprocessed_message_after, List.any_eq_false]
    intro m hm
    simp [hall m hm]

/-- Witness for C9: on a store holding only the bot's own message, the
debounce predicate reports nothing. -/
theorem claim9_witness :
    (∀ m ∈ dbOwnW.messages, m.is_from_me = true) ∧
    has_unprocessed_message_after dbOwnW "group3@g.us" 100
      (some "u1@s.whatsapp.net") = false :=
  ⟨by decide,
   (claim9_has_unprocessed_after dbOwnW "group3@g.us" 100
      (some "u1@s.whatsapp.net")).2 (by decide)⟩

/-! ### Claim C4 -/

/-- Counterexample to C4 as stated: `msgEchoW` is an incoming message
(`is_from_me = 0`) whose content `"hello"` equals the most recently sent
reply recorded for its conversation, yet processing does not complete
silently — the completion provider is invoked with that content, because
the code's echo check additionally requires the origin flag. -/
theorem claim4_counterexample :
    lastRespW msgEchoW.chat_jid = some msgEchoW.content ∧
    process_message cfgW lastRespW msgEchoW [] =
      ProcessOutcome.repliedViaLLM "hello" ∧
    process_message cfgW lastRespW msgEchoW [] ≠
      ProcessOutcome.completedWithoutReply := by
  refine ⟨by decide, by decide, by decide⟩

/-- Claim C4 (amended): a claimed message is completed without any reply
and without invoking the completion provider when its identifier carries
the synthetic `"sent_"` pattern, or its sender equals the operator's own
identity, or — in a non-self conversation — its origin flag marks it as
the bot's own and its content equals the non-empty most recently sent
reply recorded for its conversation. -/
theorem claim4_loop_suppression (cfg : BotConfig)
    (lr : String → Option String) (m : Msg) (dbs : List DB)
    (h : pyStartsWith m.id "sent_" = true ∨ m.sender = cfg.self_jid ∨
      (is_self_message cfg m.chat_jid = false ∧ m.is_from_me = true ∧
       ∃ r, lr m.chat_jid = some r ∧ r ≠ "" ∧ m.content = r)) :
    process_message cfg lr m dbs = ProcessOutcome.completedWithoutReply := by
  by_cases h0 : (m.processing_status == PStatus.completed) = true
  · simp [process_message, h0]
  · rcases h with h1 | h1 | ⟨hns, hfm, r, hr, hrne, hc⟩
    · simp [process_message, h0, h1]
    · simp [process_message, h0, h1]
    · by_cases h2 : (pyStartsWith m.id "sent_" || m.sender == cfg.self_jid ||
        pyEndsWith m.sender cfg.self_jid) = true
      · simp [process_message, h0, h2]
      · have hecho : (!(is_self_message cfg m.chat_jid) && m.is_from_me &&
            (match lr m.chat_jid with
             | some rr => !(rr == "") && m.content == rr
             | none => false)) = true := by
          rw [hr]
          simp [hns, hfm, hrne, hc]
        simp [process_message, h0, h2, hecho]

/-- Witness for the amended C4: the echo message carrying the bot-origin
flag is completed without reply. -/
theorem claim4_witness :
    (pyStartsWith msgEchoFromMeW.id "sent_" = true ∨
     msgEchoFromMeW.sender = cfgW.self_jid ∨
     (is_self_message cfgW msgEchoFromMeW.chat_jid = false ∧
      msgEchoFromMeW.is_from_me = true ∧
      ∃ r, lastRespW msgEchoFromMeW.chat_jid = some r ∧ r ≠ "" ∧
        msgEchoFromMeW.content = r)) ∧
    process_message cfgW lastRespW msgEchoFromMeW [] =
      ProcessOutcome.completedWithoutReply :=
  ⟨Or.inr (Or.inr ⟨by decide, by decide, "hello", by decide, by decide,
     by decide⟩),
   claim4_loop_suppression cfgW lastRespW msgEchoFromMeW []
     (Or.inr (Or.inr ⟨by decide, by decide, "hello", by decide, by decide,
        by decide⟩))⟩

/-! ### Claim C5 -/

/-- Claim C5: the wake-word check on the spec's examples, and the gate in
`process_message` for conversations whose policy requires a wake word:
no match, or an empty remainder after stripping, completes the message
without reply and without invoking the completion provider; a match with a
non-empty remainder continues processing with the remainder (reaching the
provider with exactly the stripped content when no response delay
intervenes). -/
theorem claim5_wake_word_gate :
    check_and_strip_wake_word "hey bot what time is it" =
      (true, "what time is it") ∧
    check_and_strip_wake_word "hello everyone" = (false, "hello everyone") ∧
    check_and_strip_wake_word "hey bot" = (true, "") ∧
    (∀ (cfg : BotConfig) (lr : String → Option String) (m : Msg)
        (dbs : List DB) (e : MonitoredEntity),
      cfg.entity_by_jid m.chat_jid = some e → e.hey_bot = true →
      is_self_message cfg m.chat_jid = false →
      ((check_and_strip_wake_word m.content).1 = false ∨
        pyStrip (check_and_strip_wake_word m.content).2 = "") →
      process_message cfg lr m dbs = ProcessOutcome.completedWithoutReply) ∧
    (∀ (cfg : BotConfig) (lr : String → Option String) (m : Msg)
        (dbs : List DB) (e : MonitoredEntity) (stripped : String),
      cfg.entity_by_jid m.chat_jid = some e → e.hey_bot = true →
      is_self_message cfg m.chat_jid = false →
      m.processing_status ≠ PStatus.completed →
      pyStartsWith m.id "sent_" = false → m.sender ≠ cfg.self_jid →
      pyEndsWith m.sender cfg.self_jid = false → m.is_from_me = false →
      check_and_strip_wake_word m.content = (true, stripped) →
      pyStrip stripped ≠ "" →
      process_message cfg lr m dbs = delayAndReply cfg m stripped dbs ∧
      (get_response_delay_for_entity cfg m.chat_jid = 0 →
        process_message cfg lr m dbs =
          ProcessOutcome.repliedViaLLM stripped)) := by
  refine ⟨by decide, by decide, by decide, ?_, ?_⟩
  · intro cfg lr m dbs e hent hhey hns hbad
    cases hck : check_and_strip_wake_word m.content with
    | mk b s =>
      rw [hck] at hbad
      by_cases h0 : (m.processing_status == PStatus.completed) = true
      · simp [process_message, h0]
      · by_cases h2 : (pyStartsWith m.id "sent_" || m.sender == cfg.self_jid ||
          pyEndsWith m.sender cfg.self_jid) = true
        · simp [process_message, h0, h2]
        · by_cases h3 : (!(is_self_message cfg m.chat_jid) && m.is_from_me &&
              (match lr m.chat_jid with
               | some rr => !(rr == "") && m.content == rr
               | none => false)) = true
          · simp [process_message, h0, h2, h3]
          · rcases hbad with hfalse | hempty
            · cases b
              · simp [process_message, h0, h2, h3, hns, hent, hhey, hck]
              · exact absurd hfalse (by simp)
            · cases b
              · simp [process_message, h0, h2, h3, hns, hent, hhey, hck]
              · simp only [] at hempty
                simp [process_message, h0, h2, h3, hns, hent, hhey, hck,
                  hempty]
  · intro cfg lr m dbs e stripped hent hhey hns h0 hid hsid hsend hfm hck hne
    have h0b : (m.processing_status == PStatus.completed) = false := by
      simp [h0]
    have h2 : (pyStartsWith m.id "sent_" || m.sender == cfg.self_jid ||
        pyEndsWith m.sender cfg.self_jid) = false := by
      simp [hid, hsid, hsend]
    have h3 : (!(is_self_message cfg m.chat_jid) && m.is_from_me &&
        (match lr m.chat_jid with
         | some rr => !(rr == "") && m.content == rr
         | none => false)) = false := by
      simp [hfm]
    have hstr : stripped ≠ "" := by
      intro he
      apply hne
      rw [he]
      rfl
    have hmain : process_message cfg lr m dbs = delayAndReply cfg m stripped dbs := by
      simp [process_message, h0b, h2, h3, hfm, hns, hent, hhey, hck, hstr, hne]
    refine ⟨hmain, ?_⟩
    intro hd
    rw [hmain]
    simp [delayAndReply, hd, hstr, hne]

/-- Witness for C5: the wake-word chat of the concrete configuration,
with the spec's example message and the bare wake-word message. -/
theorem claim5_witness :
    cfgW.entity_by_jid msgWakeW.chat_jid = some entityWakeW ∧
    entityWakeW.hey_bot = true ∧
    is_self_message cfgW msgWakeW.chat_jid = false ∧
    check_and_strip_wake_word msgWakeW.content = (true, "what time is it") ∧
    process_message cfgW lastRespW msgWakeW [] =
      ProcessOutcome.repliedViaLLM "what time is it" ∧
    process_message cfgW lastRespW msgWakeEmptyW [] =
      ProcessOutcome.completedWithoutReply :=
  ⟨by decide, by decide, by decide, by decide,
   (claim5_wake_word_gate.2.2.2.2 cfgW lastRespW msgWakeW [] entityWakeW
      "what time is it" (by decide) (by decide) (by decide) (by decide)
      (by decide) (by decide) (by decide) (by decide) (by decide)
      (by decide)).2 (by decide),
   claim5_wake_word_gate.2.2.2.1 cfgW lastRespW msgWakeEmptyW [] entityWakeW
     (by decide) (by decide) (by decide) (Or.inr (by decide))⟩

/-! ### Claim C6 -/

/-- Counterexample to C6 as stated: with a five-second response delay the
poll interval `min(1, delay_seconds)` is exactly one second, not
sub-second. -/
theorem claim6_counterexample :
    check_interval 5 = 1 ∧ ¬ (check_interval 5 < 1) := by
  decide

/-- Claim C6 (amended): for a claimed message in a non-self conversation
with a positive response delay, the orchestrator polls
`has_unprocessed_message_after(conversation, event_timestamp, sender)` at a
one-second interval (`min(1, delay)`) until the delay elapses; if a poll
before the deadline reports a newer unprocessed message from the same
sender, the message is completed without reply and the completion provider
is never called for it. -/
theorem claim6_debounce (cfg : BotConfig) (lr : String → Option String)
    (m : Msg) (dbs : List DB)
    (hns : is_self_message cfg m.chat_jid = false)
    (hd : 0 < get_response_delay_for_entity cfg m.chat_jid)
    (hpoll : ∃ db ∈ dbs, has_unprocessed_message_after db m.chat_jid
        m.timestamp (some m.sender) = true) :
    check_interval (get_response_delay_for_entity cfg m.chat_jid) = 1 ∧
    process_message cfg lr m dbs = ProcessOutcome.completedWithoutReply := by
  constructor
  · exact Nat.min_eq_left hd
  · have hany : dbs.any (fun db => has_unprocessed_message_after db m.chat_jid
        m.timestamp (some m.sender)) = true := by
      rcases hpoll with ⟨db, hdb, hh⟩
      exact List.any_eq_true.mpr ⟨db, hdb, hh⟩
    have hwait : maybe_wait_for_user_response dbs m.chat_jid m.sender
        m.timestamp (get_response_delay_for_entity cfg m.chat_jid) = false := by
      unfold maybe_wait_for_user_response
      rw [if_neg (by omega)]
      simp [hany]
    have hdar : ∀ content, delayAndReply cfg m content dbs =
        ProcessOutcome.completedWithoutReply := by
      intro content
      unfold delayAndReply
      simp [hns, hd, hwait]
    by_cases h0 : (m.processing_status == PStatus.completed) = true
    · simp [process_message, h0]
    · by_cases h2 : (pyStartsWith m.id "sent_" || m.sender == cfg.self_jid ||
        pyEndsWith m.sender cfg.self_jid) = true
      · simp [process_message, h0, h2]
      · by_cases h3 : (!(is_self_message cfg m.chat_jid) && m.is_from_me &&
            (match lr m.chat_jid with
             | some rr => !(rr == "") && m.content == rr
             | none => false)) = true
        · simp [process_message, h0, h2, h3]
        · cases hent : cfg.entity_by_jid m.chat_jid with
          | none => simp [process_message, h0, h2, h3, hns, hent]
          | some e =>
            by_cases hhey : e.hey_bot = true
            · cases hck : check_and_strip_wake_word m.content with
              | mk b s =>
                cases b
                · simp [process_message, h0, h2, h3, hns, hent, hhey, hck]
                · by_cases hes : (s == "" || pyStrip s == "") = true
                  · simp [process_message, h0, h2, h3, hns, hent, hhey, hck,
                      hes]
                  · simp [process_message, h0, h2, h3, hns, hent, hhey, hck,
                      hes, hdar]
            · simp [process_message, h0, h2, h3, hns, hent, hhey, hdar]

/-- Witness for the amended C6: the delayed chat, a poll snapshot holding a
newer unprocessed message from the same sender, and the resulting silent
completion. -/
theorem claim6_witness :
    is_self_message cfgW msgDelayW.chat_jid = false ∧
    0 < get_response_delay_for_entity cfgW msgDelayW.chat_jid ∧
    (∃ db ∈ [dbPollW], has_unprocessed_message_after db msgDelayW.chat_jid
        msgDelayW.timestamp (some msgDelayW.sender) = true) ∧
    check_interval (get_response_delay_for_entity cfgW msgDelayW.chat_jid) = 1 ∧
    process_message cfgW lastRespW msgDelayW [dbPollW] =
      ProcessOutcome.completedWithoutReply :=
  ⟨by decide, by decide, ⟨dbPollW, by decide, by decide⟩,
   claim6_debounce cfgW lastRespW msgDelayW [dbPollW] (by decide) (by decide)
     ⟨dbPollW, by decide, by decide⟩⟩

/-! ### Claim C7 -/

/-- Claim C7: session expiry is a pure function of (reference time,
policy).  Mode `time` yields the unique instant within the day after the
reference time whose local wall-clock reading is the configured
hour:minute — the same-day occurrence when still in the future, else
tomorrow's (with reset 02:00 UTC: reference 2024-01-01T01:00Z ↦
2024-01-01T02:00Z, reference 2024-01-01T03:00Z ↦ 2024-01-02T02:00Z).
Mode `duration` yields reference + configured minutes, hours multiplying
to minutes when minutes are unset (90 minutes: 2024-01-01T00:00Z ↦
2024-01-01T01:30Z).  Mode `same_day` yields the next local midnight after
the reference time, converted back to UTC. -/
theorem claim7_session_expiry :
    (∀ (base : Int) (c : SessionMemoryConfig) (h mi : Nat),
      c.reset_mode = "time" → c.reset_time = some (h, mi) → h < 24 → mi < 60 →
      ∃ e, calculate_session_expiry base c = .ok e ∧
        (e + c.tz_offset) % 86400 = (h : Int) * 3600 + (mi : Int) * 60 ∧
        base < e ∧ e ≤ base + 86400) ∧
    (∀ (base : Int) (c : SessionMemoryConfig) (d : Nat),
      c.reset_mode = "duration" → get_duration_minutes c = some d →
      calculate_session_expiry base c = .ok (base + (d : Int) * 60)) ∧
    (∀ (c : SessionMemoryConfig) (H : Nat),
      c.reset_mode = "duration" → truthyNat c.reset_minutes = false →
      c.reset_hours = some H → H ≠ 0 →
      get_duration_minutes c = some (H * 60)) ∧
    (∀ (base : Int) (c : SessionMemoryConfig),
      c.reset_mode = "same_day" →
      ∃ e, calculate_session_expiry base c = .ok e ∧
        (e + c.tz_offset) % 86400 = 0 ∧ base < e ∧ e ≤ base + 86400) ∧
    calculate_session_expiry 1704070800 smcTimeW = .ok 1704074400 ∧
    calculate_session_expiry 1704078000 smcTimeW = .ok 1704160800 ∧
    calculate_session_expiry 1704067200 smcDur90W = .ok 1704072600 := by
  refine ⟨?_, ?_, ?_, ?_, by rfl, by rfl, by rfl⟩
  · intro base c h mi hmode hrt hh hmi
    unfold calculate_session_expiry
    rw [hmode, if_pos rfl, hrt]
    refine ⟨_, rfl, ?_⟩
    unfold localDayStart
    split_ifs with hlt <;> refine ⟨?_, ?_, ?_⟩ <;> omega
  · intro base c d hmode hd
    unfold calculate_session_expiry
    rw [hmode, if_neg (by decide), if_pos rfl, hd]
    ring_nf
  · intro c H hmode hmins hhrs hne
    unfold get_duration_minutes
    rw [hmode, if_neg (by decide), if_neg (by simp [hmins]), hhrs,
      if_pos (by simp [truthyNat, hne])]
  · intro base c hmode
    unfold calculate_session_expiry
    rw [hmode, if_neg (by decide), if_neg (by decide), if_pos rfl]
    refine ⟨_, rfl, ?_⟩
    unfold localDayStart
    refine ⟨?_, ?_, ?_⟩ <;> omega

/-- Witness for C7: the duration-mode policy of the spec example evaluated
through the claim. -/
theorem claim7_witness :
    smcDur90W.reset_mode = "duration" ∧
    get_duration_minutes smcDur90W = some 90 ∧
    calculate_session_expiry 1704067200 smcDur90W =
      .ok (1704067200 + (90 : Int) * 60) :=
  ⟨rfl, rfl, claim7_session_expiry.2.1 1704067200 smcDur90W 90 rfl rfl⟩

/-! ### Claim C10 -/

theorem trim_length_le (l : List ContextEntry) :
    (if l.length > max_context_messages then
      l.drop (l.length - max_context_messages) else l).length ≤
    max_context_messages := by
  split_ifs with h
  · rw [List.length_drop]
    omega
  · omega

theorem trim_eq_takeLast (l : List ContextEntry) :
    (if l.length > max_context_messages then
      l.drop (l.length - max_context_messages) else l) =
    takeLast max_context_messages l := by
  unfold takeLast
  split_ifs with h
  · rfl
  · rw [Nat.sub_eq_zero_of_le (by omega), List.drop_zero]

theorem prune_context_length_le (ctx : List ContextEntry)
    (c : SessionMemoryConfig) (now : Int) :
    (prune_context ctx c now).length ≤ max_context_messages := by
  by_cases hctx : ctx = []
  · simp [prune_context, hctx]
  · unfold prune_context
    rw [if_neg hctx]
    exact trim_length_le _

theorem prune_context_duration (ctx : List ContextEntry)
    (c : SessionMemoryConfig) (now : Int) (d : Nat)
    (hmode : c.reset_mode = "duration")
    (hd : get_duration_minutes c = some d) (hdne : d ≠ 0) :
    prune_context ctx c now =
      takeLast max_context_messages
        (ctx.filter (keptByCutoff (now - (d : Int) * 60))) := by
  have hscrut : (if c.reset_mode = "duration" then
      match get_duration_minutes c with
      | some d0 => if d0 == 0 then none else some (now - (d0 : Int) * 60)
      | none => none
    else none) = some (now - (d : Int) * 60) := by
    rw [if_pos hmode, hd]
    show (if (d == 0) = true then none else some (now - (d : Int) * 60)) =
      some (now - (d : Int) * 60)
    rw [if_neg (by simp [hdne])]
  by_cases hctx : ctx = []
  · simp [prune_context, hctx, takeLast]
  · unfold prune_context
    rw [if_neg hctx]
    simp only [hscrut]
    rw [trim_eq_takeLast]

theorem prune_context_no_window (ctx : List ContextEntry)
    (c : SessionMemoryConfig) (now : Int)
    (hmode : c.reset_mode ≠ "duration") :
    prune_context ctx c now = takeLast max_context_messages ctx := by
  have hscrut : (if c.reset_mode = "duration" then
      match get_duration_minutes c with
      | some d0 => if d0 == 0 then none else some (now - (d0 : Int) * 60)
      | none => none
    else none) = (none : Option Int) := if_neg hmode
  by_cases hctx : ctx = []
  · simp [prune_context, hctx, takeLast]
  · unfold prune_context
    rw [if_neg hctx]
    simp only [hscrut]
    rw [trim_eq_takeLast]
    congr 1
    show ctx.filter (fun _ => true) = ctx
    simp

/-- Claim C10: pruned contexts and appended-then-trimmed contexts hold at
most 20 entries, keeping the most recent ones (the tail of the filtered
list); under a duration-mode policy the entries older than the window
before the reference time are dropped by the window filter, while entries
with a missing or unparseable timestamp always pass it; without a duration
window no entry is age-dropped. -/
theorem claim10_context_bounds (ctx : List ContextEntry)
    (c : SessionMemoryConfig) (now : Int) :
    (prune_context ctx c now).length ≤ max_context_messages ∧
    (∀ (u a : String) (ut rt : Int) (s : Option String),
      (append_and_trim_context ctx u a ut rt c s).length ≤
        max_context_messages) ∧
    (∀ d : Nat, c.reset_mode = "duration" → get_duration_minutes c = some d →
      d ≠ 0 →
      prune_context ctx c now =
        takeLast max_context_messages
          (ctx.filter (keptByCutoff (now - (d : Int) * 60))) ∧
      ∀ e ∈ ctx, e.timestamp = none →
        e ∈ ctx.filter (keptByCutoff (now - (d : Int) * 60))) ∧
    (c.reset_mode ≠ "duration" →
      prune_context ctx c now = takeLast max_context_messages ctx) := by
  refine ⟨prune_context_length_le ctx c now, ?_, ?_, ?_⟩
  · intro u a ut rt s
    exact prune_context_length_le _ c rt
  · intro d hmode hd hdne
    refine ⟨prune_context_duration ctx c now d hmode hd hdne, ?_⟩
    intro e he hnone
    exact List.mem_filter.mpr ⟨he, by simp [keptByCutoff, hnone]⟩
  · intro hmode
    exact prune_context_no_window ctx c now hmode

/-- Witness for C10: the concrete context pruned under the 90-minute
policy at reference time 6000. -/
theorem claim10_witness :
    smcDur90W.reset_mode = "duration" ∧
    get_duration_minutes smcDur90W = some 90 ∧
    prune_context ctxW smcDur90W 6000 =
      takeLast max_context_messages
        (ctxW.filter (keptByCutoff (6000 - (90 : Int) * 60))) ∧
    (prune_context ctxW smcDur90W 6000).length ≤ max_context_messages :=
  ⟨rfl, rfl,
   ((claim10_context_bounds ctxW smcDur90W 6000).2.2.1 90 rfl rfl
      (by decide)).1,
   (claim10_context_bounds ctxW smcDur90W 6000).1⟩

end WhatsappBot
